import Mathlib

/-!
Verification of the usage-metering and billing-reconciliation flow of the
otto-server repository: the call-log usage claim (`markUsageRecorded`), the
status-callback reconciliation handler, Stripe overage reporting
(`reportOveragesToStripe`), and the two optimistic-concurrency reset sweepers.

Database tables are modelled as lists of rows; timestamps are naturals;
`UPDATE ... WHERE` statements become conditional maps over the row list, with
the number (or presence) of affected rows returned exactly as drizzle's
`.returning()` result is used by the source. Thrown TypeScript exceptions are
modelled with `Except`.
-/

namespace Otto

/-- A row of the `call_logs` table (schema `callLogs`), restricted to the fields
read or written by the status-callback / usage flow. -/
structure CallLog where
  id : Nat
  restaurantId : Nat
  customerPhone : String
  twilioCallSid : Option String
  duration : Option Nat
  status : String
  lastPolledAt : Option Nat
  usageRecordedAt : Option Nat
deriving Repr, DecidableEq

/-- Embedding of `DatabaseStorage.markUsageRecorded`:
`UPDATE call_logs SET usage_recorded_at = now() WHERE id = ? AND usage_recorded_at IS NULL RETURNING id`;
the method returns `!!result`, i.e. whether some row was updated. The updated
database is returned alongside. -/
def markUsageRecorded (now : Nat) (id : Nat) (db : List CallLog) :
    Bool × List CallLog :=
  (db.any (fun c => c.id == id && c.usageRecordedAt.isNone),
   db.map (fun c =>
     if c.id == id && c.usageRecordedAt.isNone then
       { c with usageRecordedAt := some now }
     else c))

/-- A sequence of `markUsageRecorded` invocations on the same id (one per
timestamp in `nows`), with no intervening writes; returns how many of them
reported `true`. -/
def runClaims (id : Nat) (nows : List Nat) (db : List CallLog) : Nat :=
  match nows with
  | [] => 0
  | t :: rest =>
    (if (markUsageRecorded t id db).1 then 1 else 0) +
      runClaims id rest (markUsageRecorded t id db).2

theorem mark_fst_iff (now id : Nat) (db : List CallLog) :
    (markUsageRecorded now id db).1 = true ↔
      ∃ c ∈ db, c.id = id ∧ c.usageRecordedAt = none := by
  simp [markUsageRecorded, List.any_eq_true, Option.isNone_iff_eq_none]

theorem mark_clears_nulls (now id : Nat) (db : List CallLog) :
    ∀ c' ∈ (markUsageRecorded now id db).2, c'.id = id →
      c'.usageRecordedAt ≠ none := by
  intro c' hc' hid
  simp only [markUsageRecorded, List.mem_map] at hc'
  obtain ⟨c, _, heq⟩ := hc'
  by_cases h : (c.id == id && c.usageRecordedAt.isNone) = true
  · rw [if_pos h] at heq
    rw [← heq]
    simp
  · rw [if_neg h] at heq
    subst heq
    simp only [Bool.and_eq_true, beq_iff_eq, Option.isNone_iff_eq_none,
      not_and] at h
    exact h hid

theorem runClaims_zero (id : Nat) (nows : List Nat) (db : List CallLog)
    (h : ∀ c ∈ db, c.id = id → c.usageRecordedAt ≠ none) :
    runClaims id nows db = 0 := by
  induction nows generalizing db with
  | nil => rfl
  | cons t rest ih =>
    have hfalse : (markUsageRecorded t id db).1 = false := by
      rw [Bool.eq_false_iff]
      intro hw
      obtain ⟨c, hc, hcid, hcnone⟩ := (mark_fst_iff t id db).mp hw
      exact h c hc hcid hcnone
    simp only [runClaims, hfalse, if_neg Bool.false_ne_true]
    rw [ih _ (mark_clears_nulls t id db)]

/-- C1: `markUsageRecorded` returns true iff some row with the given id had a
null `usageRecordedAt` immediately before the conditional write; afterwards
every row with that id has a non-null timestamp; and a nonempty sequence of
claim invocations on an id whose row starts unclaimed yields exactly one
`true`. -/
theorem claim_wins_exactly_once (now id : Nat) (db : List CallLog) :
    ((markUsageRecorded now id db).1 = true ↔
       ∃ c ∈ db, c.id = id ∧ c.usageRecordedAt = none)
    ∧ (∀ c' ∈ (markUsageRecorded now id db).2, c'.id = id →
         c'.usageRecordedAt ≠ none)
    ∧ (∀ nows : List Nat, nows ≠ [] →
         (∃ c ∈ db, c.id = id ∧ c.usageRecordedAt = none) →
         runClaims id nows db = 1) := by
  refine ⟨mark_fst_iff now id db, mark_clears_nulls now id db, ?_⟩
  intro nows hne hex
  match nows with
  | [] => exact absurd rfl hne
  | t :: rest =>
    have hwin : (markUsageRecorded t id db).1 = true :=
      (mark_fst_iff t id db).mpr hex
    simp only [runClaims, hwin, if_pos]
    rw [runClaims_zero id rest _ (mark_clears_nulls t id db)]

/-- Witness for C1 at a concrete one-row call-log table. -/
theorem claim_wins_exactly_once_witness :
    runClaims 1 [5, 6, 7]
      [{ id := 1, restaurantId := 2, customerPhone := "555",
         twilioCallSid := none, duration := none, status := "in-progress",
         lastPolledAt := none, usageRecordedAt := none }] = 1 :=
  (claim_wins_exactly_once 5 1
      [{ id := 1, restaurantId := 2, customerPhone := "555",
         twilioCallSid := none, duration := none, status := "in-progress",
         lastPolledAt := none, usageRecordedAt := none }]).2.2
    [5, 6, 7] (by decide) (by decide)

/-- A row of the `users` table, restricted to the fields the billing flow
reads or writes. Nullable columns are `Option`; `monthlyCallsUsed` and
`monthlyMinutesUsed` are nullable integer columns incremented with raw SQL
(`col + q`, which keeps NULL at NULL), hence `Option Nat`. -/
structure User where
  id : Nat
  stripeCustomerId : Option String
  stripeSubscriptionId : Option String
  subscriptionPlan : Option String
  billingCycleStart : Option Nat
  monthlyCallsUsed : Option Nat
  monthlyMinutesUsed : Option Nat
deriving Repr, DecidableEq

/-- A row of the `usage_records` table (the usage ledger). -/
structure UsageRecord where
  id : Nat
  userId : Nat
  restaurantId : Nat
  type : String
  quantity : Nat
  reportedToStripe : Bool
  stripeUsageRecordId : Option String
  billingPeriod : Nat
deriving Repr, DecidableEq

/-- A row of the `subscription_prices` table, restricted to the fields read by
`reportOveragesToStripe`. -/
structure SubscriptionPrice where
  plan : String
  stripeMeteredPriceId : Option String
  includedMinutes : Option Nat
  includedCalls : Option Nat
deriving Repr, DecidableEq

/-- A row of the `agent_configurations` table, restricted to the fields read by
the status-callback usage flow. -/
structure AgentConfiguration where
  restaurantId : Nat
  billingUserId : Option Nat
deriving Repr, DecidableEq

/-- The billing-side database state. -/
structure BillingState where
  users : List User
  usageRecords : List UsageRecord
  subscriptionPrices : List SubscriptionPrice
  nextUsageId : Nat
deriving Repr, DecidableEq

/-- One `stripe.billing.meterEvents.create` call made by the service. -/
structure MeterEventSubmission where
  eventName : String
  value : Nat
  stripeCustomerId : Option String
deriving Repr, DecidableEq

/-- Environment for the Stripe SDK calls made by `reportOveragesToStripe`:
the price ids of the items on the retrieved subscription, and the outcome of
`stripe.billing.meterEvents.create` (event id on success, thrown error
message on failure). -/
structure StripeEnv where
  subscriptionItemPriceIds : List String
  meterEventResult : Except String String
deriving Repr

/-- The source's `plan.charAt(0).toUpperCase() + plan.slice(1)`
capitalisation used to look the plan up in `subscription_prices`. -/
def capitalizeFirst (s : String) : String :=
  match s.data with
  | [] => ""
  | c :: cs => String.mk (Char.toUpper c :: cs)

/-- The overage computation of `reportOveragesToStripe` (stripe-service.ts):
`overageType`/`overageQuantity` together with the guard
`overageType && overageQuantity > 0`. `Math.max(0, a - b)` on naturals is
truncated subtraction. -/
def overageDecision (user : User) (priceConfig : SubscriptionPrice) :
    Option (String × Nat) :=
  if user.subscriptionPlan = some "starter" then
    let callsOverage := user.monthlyCallsUsed.getD 0 - priceConfig.includedCalls.getD 0
    if callsOverage > 0 then some ("call", callsOverage) else none
  else if user.subscriptionPlan = some "growth" ∨ user.subscriptionPlan = some "pro" then
    let minutesOverage := user.monthlyMinutesUsed.getD 0 - priceConfig.includedMinutes.getD 0
    if minutesOverage > 0 then some ("minute", minutesOverage) else none
  else none

/-- The filter of the unreported-records query:
`userId = ? AND type = ? AND reportedToStripe = false`. -/
def isUnreported (userId : Nat) (ty : String) (r : UsageRecord) : Bool :=
  r.userId == userId && r.type == ty && r.reportedToStripe == false

/-- The `UPDATE usage_records SET reported_to_stripe = true,
stripe_usage_record_id = ? WHERE id IN (...)` write. -/
def markReported (ids : List Nat) (eventId : String) (st : BillingState) :
    BillingState :=
  { st with usageRecords := st.usageRecords.map (fun r =>
      if ids.contains r.id then
        { r with reportedToStripe := true, stripeUsageRecordId := some eventId }
      else r) }

/-- The body of `StripeService.reportOveragesToStripe` inside the outer `try`:
early `return`s become `.ok (st, [])`, a thrown meter error (the inner catch
logs and re-throws) becomes `.error`. -/
def reportOveragesBody (env : StripeEnv) (userId : Nat) (st : BillingState) :
    Except String (BillingState × List MeterEventSubmission) :=
  match st.users.find? (fun u => u.id == userId) with
  | none => .ok (st, [])
  | some user =>
    match user.stripeSubscriptionId, user.subscriptionPlan with
    | some _, some plan =>
      match st.subscriptionPrices.find? (fun p => p.plan == capitalizeFirst plan) with
      | none => .ok (st, [])
      | some priceConfig =>
        match overageDecision user priceConfig with
        | none => .ok (st, [])
        | some (overageType, _overageQuantity) =>
          let unreported := st.usageRecords.filter (isUnreported userId overageType)
          if unreported.isEmpty then .ok (st, [])
          else
            match priceConfig.stripeMeteredPriceId with
            | none => .ok (st, [])
            | some meteredPriceId =>
              if env.subscriptionItemPriceIds.contains meteredPriceId then
                let totalQuantity := (unreported.map (fun r => r.quantity)).sum
                match env.meterEventResult with
                | .error e => .error e
                | .ok eventId =>
                  .ok (markReported (unreported.map (fun r => r.id)) eventId st,
                       [{ eventName :=
                            if overageType = "call" then "otto_calls" else "otto_minutes",
                          value := totalQuantity,
                          stripeCustomerId := user.stripeCustomerId }])
              else .ok (st, [])
    | _, _ => .ok (st, [])

/-- Embedding of `StripeService.reportOveragesToStripe`. The body sits inside
`try { ... } catch (error) { console.error(...) }`: every thrown error is
swallowed after logging, so the method always resolves. No database write
precedes a throw point in the body, so on a caught error the state is
unchanged and no submission was recorded. -/
def reportOveragesToStripe (env : StripeEnv) (userId : Nat) (st : BillingState) :
    Except String (BillingState × List MeterEventSubmission) :=
  match reportOveragesBody env userId st with
  | .ok r => .ok r
  | .error _ => .ok (st, [])

/-- Per-row effect of the monthly-counter increment of
`StripeService.recordUsage`:
`UPDATE users SET monthly_calls_used = monthly_calls_used + q WHERE id = ?`
(or the minutes column); SQL `NULL + q` stays `NULL`. -/
def counterBump (userId : Nat) (ty : String) (quantity : Nat) (u : User) :
    User :=
  if u.id = userId then
    if ty = "call" then
      { u with monthlyCallsUsed := u.monthlyCallsUsed.map (· + quantity) }
    else
      { u with monthlyMinutesUsed := u.monthlyMinutesUsed.map (· + quantity) }
  else u

/-- The monthly-counter update applied to the whole `users` table. -/
def incrementCounters (userId : Nat) (ty : String) (quantity : Nat)
    (st : BillingState) : BillingState :=
  { st with users := st.users.map (counterBump userId ty quantity) }

/-- Embedding of `StripeService.recordUsage`: look up the user (throws `User not found`),
insert a ledger entry (`insertOk` injects the outcome of this database write,
per the spec's failure semantics), increment the monthly counter, then call
`reportOveragesToStripe`. -/
def recordUsage (env : StripeEnv) (insertOk : Bool) (userId restaurantId : Nat)
    (ty : String) (quantity : Nat) (now : Nat) (st : BillingState) :
    Except String (BillingState × List MeterEventSubmission) :=
  match st.users.find? (fun u => u.id == userId) with
  | none => .error "User not found"
  | some user =>
    if insertOk then
      let entry : UsageRecord :=
        { id := st.nextUsageId, userId := userId, restaurantId := restaurantId,
          type := ty, quantity := quantity, reportedToStripe := false,
          stripeUsageRecordId := none,
          billingPeriod := user.billingCycleStart.getD now }
      let st1 : BillingState :=
        { st with usageRecords := st.usageRecords ++ [entry],
                  nextUsageId := st.nextUsageId + 1 }
      reportOveragesToStripe env userId (incrementCounters userId ty quantity st1)
    else .error "usage record insert failed"

/-- The static `PLAN_CONFIG` entries of stripe-service.ts (numeric/limit
fields). -/
structure PlanConfig where
  name : String
  monthlyPrice : Nat
  includedCalls : Option Nat
  includedMinutes : Option Nat
  perCallOverage : Option Nat
  perMinuteOverage : Option Nat
deriving Repr, DecidableEq

def PLAN_CONFIG_starter : PlanConfig :=
  { name := "Starter", monthlyPrice := 0, includedCalls := some 20,
    includedMinutes := some 0, perCallOverage := some 100,
    perMinuteOverage := none }

def PLAN_CONFIG_growth : PlanConfig :=
  { name := "Growth", monthlyPrice := 29900, includedCalls := none,
    includedMinutes := some 750, perCallOverage := none,
    perMinuteOverage := some 27 }

def PLAN_CONFIG_pro : PlanConfig :=
  { name := "Pro", monthlyPrice := 59900, includedCalls := none,
    includedMinutes := some 1800, perCallOverage := none,
    perMinuteOverage := some 25 }

def PLAN_CONFIG_unlimited : PlanConfig :=
  { name := "Unlimited", monthlyPrice := 99900, includedCalls := none,
    includedMinutes := none, perCallOverage := none, perMinuteOverage := none }

/-- Reference overage rule, following the spec's words: for `starter` the
overage is `max(0, monthlyCallsUsed - includedCalls)` calls, for `growth`/`pro`
it is `max(0, monthlyMinutesUsed - includedMinutes)` minutes, for any other
plan (in particular `unlimited`) no overage is ever computed. -/
def overageSpecRule (plan : String) (callsUsed minutesUsed : Nat)
    (includedCalls includedMinutes : Nat) : Option (String × Nat) :=
  if plan = "starter" then
    some ("call", (max 0 ((callsUsed : Int) - includedCalls)).toNat)
  else if plan = "growth" ∨ plan = "pro" then
    some ("minute", (max 0 ((minutesUsed : Int) - includedMinutes)).toNat)
  else none

deriving instance DecidableEq for Except

/-- JS falsiness of a nullable numeric column (`!x`): null or 0. -/
def jsFalsyNat (x : Option Nat) : Bool :=
  match x with
  | none => true
  | some n => n == 0

/-- The `updates` object built by the status-callback handler; `none` on an
optional field means the field is absent from the update. -/
structure CallLogUpdates where
  status : String
  lastPolledAt : Nat
  duration : Option Nat
  twilioCallSid : Option String
deriving Repr, DecidableEq

/-- routes.ts `POST /twiml/status/:restaurantId`: construction of `updates`
from the request body (`CallStatus`, `CallDuration`, `CallSid`) and the call
log that was read. -/
def buildUpdates (callStatus : String) (callDuration : Option Nat)
    (callSid : Option String) (callLog : CallLog) (now : Nat) :
    CallLogUpdates :=
  { status := if callStatus = "completed" then "completed" else "failed"
    lastPolledAt := now
    duration :=
      if callDuration.isSome && jsFalsyNat callLog.duration then callDuration
      else none
    twilioCallSid :=
      if callSid.isSome && callLog.twilioCallSid.isNone then callSid
      else none }

/-- Applying the updates record to a row (`storage.updateCallLog`): fields
absent from the update keep their value. -/
def applyUpdates (u : CallLogUpdates) (c : CallLog) : CallLog :=
  { c with
    status := u.status
    lastPolledAt := some u.lastPolledAt
    duration := match u.duration with | some d => some d | none => c.duration
    twilioCallSid :=
      match u.twilioCallSid with | some s => some s | none => c.twilioCallSid }

/-- The `UPDATE call_logs SET ... WHERE id = ?` write applying `f` to matching rows. -/
def updateCallLogWith (id : Nat) (f : CallLog → CallLog)
    (db : List CallLog) : List CallLog :=
  db.map (fun c => if c.id = id then f c else c)

/-- The claim rollback `storage.updateCallLog(id, ...)` setting
`usageRecordedAt` back to null. -/
def clearUsageRecorded (id : Nat) (db : List CallLog) : List CallLog :=
  updateCallLogWith id (fun c => { c with usageRecordedAt := none }) db

/-- The fallback chain `updates.duration ?? callLog.duration ?? Number(CallDuration ?? 0)`. -/
def handlerDurationSeconds (updatesDuration logDuration callDuration :
    Option Nat) : Nat :=
  match updatesDuration with
  | some d => d
  | none =>
    match logDuration with
    | some d => d
    | none => callDuration.getD 0

/-- Embedding of `Math.ceil(durationSeconds / 60)` on a natural number of seconds. -/
def ceilMinutes (d : Nat) : Nat := (d + 59) / 60

/-- Outcome of one status-callback invocation: the call-log table, the billing
state, the meter events submitted to Stripe, and whether the handler logged
`Failed to record usage` (the `catch (usageError)` branch). -/
structure StatusCallbackResult where
  callDb : List CallLog
  billing : BillingState
  submissions : List MeterEventSubmission
  usageErrorLogged : Bool
deriving Repr, DecidableEq

/-- The status-callback handler after a call log has been matched
(routes.ts `POST /twiml/status/:restaurantId`, the `if (callLog)` branch):
apply the status update, then — for a completed call whose read row was not
yet claimed — atomically claim it and record usage, with the source's
rollback rules (`stripeRecordingStarted` is set only after the first
`recordUsage` resolves). `insertOkCall` / `insertOkMinute` inject the
outcomes of the two ledger inserts. -/
def statusCallback (env : StripeEnv) (insertOkCall insertOkMinute : Bool)
    (agentConfigs : List AgentConfiguration) (restaurantId : Nat)
    (callSid : Option String) (callStatus : String)
    (callDuration : Option Nat) (callLog : CallLog) (now : Nat)
    (callDb : List CallLog) (st : BillingState) : StatusCallbackResult :=
  let updates := buildUpdates callStatus callDuration callSid callLog now
  let callDb1 := updateCallLogWith callLog.id (applyUpdates updates) callDb
  if callStatus = "completed" ∧ callLog.usageRecordedAt = none then
    let claim := markUsageRecorded now callLog.id callDb1
    if claim.1 then
      match (agentConfigs.find? (fun a => a.restaurantId == restaurantId)).bind
          (fun a => a.billingUserId) with
      | none =>
        { callDb := clearUsageRecorded callLog.id claim.2, billing := st,
          submissions := [], usageErrorLogged := false }
      | some billingUserId =>
        let durationSeconds :=
          handlerDurationSeconds updates.duration callLog.duration callDuration
        match recordUsage env insertOkCall billingUserId restaurantId
            "call" 1 now st with
        | .error _ =>
          { callDb := clearUsageRecorded callLog.id claim.2, billing := st,
            submissions := [], usageErrorLogged := true }
        | .ok (st1, subs1) =>
          let minutes := ceilMinutes durationSeconds
          if minutes > 0 then
            match recordUsage env insertOkMinute billingUserId restaurantId
                "minute" minutes now st1 with
            | .error _ =>
              { callDb := claim.2, billing := st1, submissions := subs1,
                usageErrorLogged := true }
            | .ok (st2, subs2) =>
              { callDb := claim.2, billing := st2,
                submissions := subs1 ++ subs2, usageErrorLogged := false }
          else
            { callDb := claim.2, billing := st1, submissions := subs1,
              usageErrorLogged := false }
    else
      { callDb := claim.2, billing := st, submissions := [],
        usageErrorLogged := false }
  else
    { callDb := callDb1, billing := st, submissions := [],
      usageErrorLogged := false }

/-- A row of `agent_configurations` as the wait-time sweeper sees it. -/
structure AgentRow where
  id : Nat
  waitTimeMinutes : Nat
  defaultWaitTimeMinutes : Nat
  resetWaitTimeAt : Option Nat
  mode : String
deriving Repr, DecidableEq

/-- Embedding of `storage.getAgentsNeedingWaitTimeReset`:
`resetWaitTimeAt IS NOT NULL AND resetWaitTimeAt <= now`. -/
def getAgentsNeedingWaitTimeReset (now : Nat) (rows : List AgentRow) :
    List AgentRow :=
  rows.filter (fun r =>
    match r.resetWaitTimeAt with
    | some t => decide (t ≤ now)
    | none => false)

/-- One conditional update of `WaitTimeResetScheduler.checkAndResetWaitTimes`
for a previously read row `agent`: set `waitTimeMinutes` to the default and
clear `resetWaitTimeAt`, guarded by
`id = ? AND resetWaitTimeAt = original` (`IS NULL` when the original was
null). Returns the updated table and whether some row matched
(`result.length > 0`). -/
def resetWaitTimeStep (agent : AgentRow) (rows : List AgentRow) :
    List AgentRow × Bool :=
  (rows.map (fun row =>
     if row.id == agent.id && row.resetWaitTimeAt == agent.resetWaitTimeAt then
       { row with waitTimeMinutes := agent.defaultWaitTimeMinutes,
                  resetWaitTimeAt := none }
     else row),
   rows.any (fun row =>
     row.id == agent.id && row.resetWaitTimeAt == agent.resetWaitTimeAt))

/-- The sweeper loop over the previously read snapshots: a row whose
conditional update matched is counted in `resetCount`, a skipped row is not,
and the loop continues either way. -/
def sweepWaitTimes (agents : List AgentRow) (rows : List AgentRow) :
    List AgentRow × Nat :=
  match agents with
  | [] => (rows, 0)
  | a :: rest =>
    let step := resetWaitTimeStep a rows
    let next := sweepWaitTimes rest step.1
    (next.1, (if step.2 then 1 else 0) + next.2)

/-- A row of `menu_overrides` as the override sweeper sees it. -/
structure MenuOverrideRow where
  id : Nat
  agentConfigurationId : Nat
  content : String
  resetAt : Option Nat
  status : String
deriving Repr, DecidableEq

/-- Embedding of `storage.getOverridesNeedingAutoDelete`:
`status = 'active' AND resetAt IS NOT NULL AND resetAt <= now`. -/
def getOverridesNeedingAutoDelete (now : Nat) (rows : List MenuOverrideRow) :
    List MenuOverrideRow :=
  rows.filter (fun r =>
    r.status == "active" &&
      match r.resetAt with
      | some t => decide (t ≤ now)
      | none => false)

/-- One conditional update of
`MenuOverrideResetScheduler.checkAndDeleteExpiredOverrides`: set status to
`deleted`, guarded by `id = ? AND status = original AND resetAt = original`
(`IS NULL` when the original was null). -/
def deleteOverrideStep (ov : MenuOverrideRow) (rows : List MenuOverrideRow) :
    List MenuOverrideRow × Bool :=
  (rows.map (fun row =>
     if row.id == ov.id && row.status == ov.status && row.resetAt == ov.resetAt
     then { row with status := "deleted" }
     else row),
   rows.any (fun row =>
     row.id == ov.id && row.status == ov.status && row.resetAt == ov.resetAt))

/-- The override sweeper loop over the previously read snapshots. -/
def sweepMenuOverrides (ovs : List MenuOverrideRow)
    (rows : List MenuOverrideRow) : List MenuOverrideRow × Nat :=
  match ovs with
  | [] => (rows, 0)
  | o :: rest =>
    let step := deleteOverrideStep o rows
    let next := sweepMenuOverrides rest step.1
    (next.1, (if step.2 then 1 else 0) + next.2)

theorem list_map_id_of {α : Type} (l : List α) (f : α → α)
    (h : ∀ a ∈ l, f a = a) : l.map f = l := by
  induction l with
  | nil => rfl
  | cons x xs ih =>
    rw [List.map_cons, h x (List.mem_cons_self x xs),
      ih (fun a ha => h a (List.mem_cons_of_mem x ha))]

/-- C8: if a concurrent edit changed a wait-time row's `resetWaitTimeAt` (or
an override row's `status` or `resetAt`) between the sweeper's read and its
conditional write, the conditional update matches zero rows, no field of any
row changes, the row is counted as a skip (not an error), and the sweep
continues with the remaining rows. -/
theorem sweeper_cas_skip_preserves_row
    (agent : AgentRow) (rows : List AgentRow) (agents : List AgentRow)
    (ov : MenuOverrideRow) (ovRows : List MenuOverrideRow)
    (ovs : List MenuOverrideRow)
    (hw : ∀ row ∈ rows, row.id = agent.id →
      row.resetWaitTimeAt ≠ agent.resetWaitTimeAt)
    (ho : ∀ row ∈ ovRows, row.id = ov.id →
      row.status ≠ ov.status ∨ row.resetAt ≠ ov.resetAt) :
    resetWaitTimeStep agent rows = (rows, false)
    ∧ sweepWaitTimes (agent :: agents) rows = sweepWaitTimes agents rows
    ∧ deleteOverrideStep ov ovRows = (ovRows, false)
    ∧ sweepMenuOverrides (ov :: ovs) ovRows = sweepMenuOverrides ovs ovRows := by
  have hwcond : ∀ row ∈ rows,
      (row.id == agent.id && row.resetWaitTimeAt == agent.resetWaitTimeAt)
        = false := by
    intro row hr
    by_cases hid : row.id = agent.id
    · simp [hid, hw row hr hid]
    · simp [hid]
  have hocond : ∀ row ∈ ovRows,
      (row.id == ov.id && row.status == ov.status &&
        row.resetAt == ov.resetAt) = false := by
    intro row hr
    by_cases hid : row.id = ov.id
    · rcases ho row hr hid with h | h <;> simp [hid, h]
    · simp [hid]
  have hstepw : resetWaitTimeStep agent rows = (rows, false) := by
    unfold resetWaitTimeStep
    rw [Prod.mk.injEq]
    constructor
    · exact list_map_id_of rows _ (fun row hr => by simp [hwcond row hr])
    · rw [List.any_eq_false]
      intro row hr
      rw [hwcond row hr]
      exact Bool.false_ne_true
  have hstepo : deleteOverrideStep ov ovRows = (ovRows, false) := by
    unfold deleteOverrideStep
    rw [Prod.mk.injEq]
    constructor
    · exact list_map_id_of ovRows _ (fun row hr => by simp [hocond row hr])
    · rw [List.any_eq_false]
      intro row hr
      rw [hocond row hr]
      exact Bool.false_ne_true
  refine ⟨hstepw, ?_, hstepo, ?_⟩
  · show ((sweepWaitTimes agents (resetWaitTimeStep agent rows).1).1,
      (if (resetWaitTimeStep agent rows).2 then 1 else 0) +
        (sweepWaitTimes agents (resetWaitTimeStep agent rows).1).2) = _
    rw [hstepw]
    simp
  · show ((sweepMenuOverrides ovs (deleteOverrideStep ov ovRows).1).1,
      (if (deleteOverrideStep ov ovRows).2 then 1 else 0) +
        (sweepMenuOverrides ovs (deleteOverrideStep ov ovRows).1).2) = _
    rw [hstepo]
    simp

/-- Witness for C8: a wait-time row and an override row both edited after the
sweeper's read; the sweep leaves them unchanged and counts zero resets. -/
theorem sweeper_cas_skip_preserves_row_witness :
    resetWaitTimeStep
      { id := 1, waitTimeMinutes := 45, defaultWaitTimeMinutes := 30,
        resetWaitTimeAt := some 100, mode := "agent" }
      [{ id := 1, waitTimeMinutes := 50, defaultWaitTimeMinutes := 30,
         resetWaitTimeAt := some 900, mode := "agent" }] =
      ([{ id := 1, waitTimeMinutes := 50, defaultWaitTimeMinutes := 30,
          resetWaitTimeAt := some 900, mode := "agent" }], false)
    ∧ deleteOverrideStep
      { id := 2, agentConfigurationId := 7, content := "old",
        resetAt := some 100, status := "active" }
      [{ id := 2, agentConfigurationId := 7, content := "old",
         resetAt := some 100, status := "deleted" }] =
      ([{ id := 2, agentConfigurationId := 7, content := "old",
          resetAt := some 100, status := "deleted" }], false) := by
  have h := sweeper_cas_skip_preserves_row
    { id := 1, waitTimeMinutes := 45, defaultWaitTimeMinutes := 30,
      resetWaitTimeAt := some 100, mode := "agent" }
    [{ id := 1, waitTimeMinutes := 50, defaultWaitTimeMinutes := 30,
       resetWaitTimeAt := some 900, mode := "agent" }] []
    { id := 2, agentConfigurationId := 7, content := "old",
      resetAt := some 100, status := "active" }
    [{ id := 2, agentConfigurationId := 7, content := "old",
       resetAt := some 100, status := "deleted" }] []
    (by decide) (by decide)
  exact ⟨h.1, h.2.2.1⟩

/-- C10: for a matched call record, any `CallStatus` other than `completed`
makes the handler write status `failed`; the written status never depends on
the record's previous fields (no branch preserves the prior status). -/
theorem noncompleted_status_collapses_to_failed
    (callStatus : String) (callDuration : Option Nat) (callSid : Option String)
    (callLog : CallLog) (now : Nat)
    (h : callStatus ≠ "completed") :
    (buildUpdates callStatus callDuration callSid callLog now).status = "failed"
    ∧ (∀ c : CallLog,
        (applyUpdates (buildUpdates callStatus callDuration callSid callLog now)
          c).status = "failed")
    ∧ (∀ other : CallLog,
        (buildUpdates callStatus callDuration callSid other now).status =
          (buildUpdates callStatus callDuration callSid callLog now).status) := by
  refine ⟨?_, ?_, ?_⟩ <;> simp [buildUpdates, applyUpdates, h]

/-- Witness for C10: the intermediate telephony statuses are all written as
`failed`. -/
theorem noncompleted_status_collapses_to_failed_witness :
    (buildUpdates "ringing" none none
      { id := 1, restaurantId := 2, customerPhone := "555",
        twilioCallSid := none, duration := none, status := "in-progress",
        lastPolledAt := none, usageRecordedAt := none } 9).status = "failed"
    ∧ (buildUpdates "busy" none none
      { id := 1, restaurantId := 2, customerPhone := "555",
        twilioCallSid := none, duration := none, status := "in-progress",
        lastPolledAt := none, usageRecordedAt := none } 9).status = "failed"
    ∧ (buildUpdates "no-answer" none none
      { id := 1, restaurantId := 2, customerPhone := "555",
        twilioCallSid := none, duration := none, status := "in-progress",
        lastPolledAt := none, usageRecordedAt := none } 9).status = "failed"
    ∧ (buildUpdates "in-progress" none none
      { id := 1, restaurantId := 2, customerPhone := "555",
        twilioCallSid := none, duration := none, status := "in-progress",
        lastPolledAt := none, usageRecordedAt := none } 9).status = "failed" :=
  ⟨(noncompleted_status_collapses_to_failed "ringing" none none _ 9
      (by decide)).1,
   (noncompleted_status_collapses_to_failed "busy" none none _ 9
      (by decide)).1,
   (noncompleted_status_collapses_to_failed "no-answer" none none _ 9
      (by decide)).1,
   (noncompleted_status_collapses_to_failed "in-progress" none none _ 9
      (by decide)).1⟩

theorem applyUpdates_id (u : CallLogUpdates) (c : CallLog) :
    (applyUpdates u c).id = c.id := rfl

theorem applyUpdates_usageRecordedAt (u : CallLogUpdates) (c : CallLog) :
    (applyUpdates u c).usageRecordedAt = c.usageRecordedAt := rfl

theorem clear_clears (id : Nat) (db : List CallLog) :
    ∀ c ∈ clearUsageRecorded id db, c.id = id → c.usageRecordedAt = none := by
  intro c hc hid
  simp only [clearUsageRecorded, updateCallLogWith, List.mem_map] at hc
  obtain ⟨c0, _, heq⟩ := hc
  by_cases h : c0.id = id
  · rw [if_pos h] at heq
    rw [← heq]
  · rw [if_neg h] at heq
    subst heq
    exact absurd hid h

/-- After the status update, the row image of a matched unclaimed call log is
still unclaimed, so the atomic claim succeeds. -/
theorem claim_wins_after_update (callStatus : String)
    (callDuration : Option Nat) (callSid : Option String) (callLog : CallLog)
    (now : Nat) (callDb : List CallLog) (hmem : callLog ∈ callDb)
    (hnone : callLog.usageRecordedAt = none) :
    (markUsageRecorded now callLog.id
      (updateCallLogWith callLog.id
        (applyUpdates (buildUpdates callStatus callDuration callSid callLog now))
        callDb)).1 = true := by
  apply (mark_fst_iff _ _ _).mpr
  refine ⟨applyUpdates
      (buildUpdates callStatus callDuration callSid callLog now) callLog, ?_, ?_, ?_⟩
  · simp only [updateCallLogWith, List.mem_map]
    exact ⟨callLog, hmem, by rw [if_pos rfl]⟩
  · exact applyUpdates_id _ _
  · rw [applyUpdates_usageRecordedAt]
    exact hnone

theorem recordUsage_insertFail (env : StripeEnv) (uid rid : Nat) (ty : String)
    (q now : Nat) (st : BillingState) :
    ∃ e, recordUsage env false uid rid ty q now st = .error e := by
  cases hf : st.users.find? (fun u => u.id == uid) with
  | none => exact ⟨"User not found", by simp [recordUsage, hf]⟩
  | some u => exact ⟨"usage record insert failed", by simp [recordUsage, hf]⟩

/-- C2: if the first ledger write fails after a successful claim, before any
Stripe recording has started, the handler clears the call's
`usageRecordedAt` back to null (re-opening the claim), leaves the billing
state untouched, submits nothing, and surfaces the error
(`Failed to record usage` is logged). -/
theorem rollback_on_local_ledger_failure
    (env : StripeEnv) (insertOkMinute : Bool)
    (agentConfigs : List AgentConfiguration) (restaurantId : Nat)
    (callSid : Option String) (callDuration : Option Nat)
    (callLog : CallLog) (now : Nat) (callDb : List CallLog)
    (st : BillingState) (billingUserId : Nat)
    (hmem : callLog ∈ callDb)
    (hnone : callLog.usageRecordedAt = none)
    (hagent : (agentConfigs.find? (fun a => a.restaurantId == restaurantId)).bind
        (fun a => a.billingUserId) = some billingUserId) :
    (∀ c ∈ (statusCallback env false insertOkMinute agentConfigs restaurantId
        callSid "completed" callDuration callLog now callDb st).callDb,
      c.id = callLog.id → c.usageRecordedAt = none)
    ∧ (statusCallback env false insertOkMinute agentConfigs restaurantId
        callSid "completed" callDuration callLog now callDb st).billing = st
    ∧ (statusCallback env false insertOkMinute agentConfigs restaurantId
        callSid "completed" callDuration callLog now callDb st).submissions = []
    ∧ (statusCallback env false insertOkMinute agentConfigs restaurantId
        callSid "completed" callDuration callLog now callDb st).usageErrorLogged
        = true := by
  obtain ⟨e, he⟩ := recordUsage_insertFail env billingUserId restaurantId
    "call" 1 now st
  have hclaim := claim_wins_after_update "completed" callDuration callSid
    callLog now callDb hmem hnone
  unfold statusCallback
  rw [if_pos ⟨rfl, hnone⟩, if_pos hclaim]
  split
  · next heq =>
      rw [hagent] at heq
      simp at heq
  · next b heq =>
      rw [hagent] at heq
      injection heq with hb
      subst hb
      rw [he]
      exact ⟨clear_clears _ _, rfl, rfl, rfl⟩

/-- Witness for C2 at a concrete state with a forced ledger-insert failure. -/
theorem rollback_on_local_ledger_failure_witness :
    (statusCallback
      { subscriptionItemPriceIds := [], meterEventResult := .ok "evt" }
      false true
      [{ restaurantId := 3, billingUserId := some 1 }] 3 (some "CA1")
      "completed" (some 61)
      { id := 1, restaurantId := 3, customerPhone := "555",
        twilioCallSid := none, duration := none, status := "in-progress",
        lastPolledAt := none, usageRecordedAt := none } 500
      [{ id := 1, restaurantId := 3, customerPhone := "555",
         twilioCallSid := none, duration := none, status := "in-progress",
         lastPolledAt := none, usageRecordedAt := none }]
      { users := [], usageRecords := [], subscriptionPrices := [],
        nextUsageId := 0 }).usageErrorLogged = true :=
  (rollback_on_local_ledger_failure
    { subscriptionItemPriceIds := [], meterEventResult := .ok "evt" }
    true
    [{ restaurantId := 3, billingUserId := some 1 }] 3 (some "CA1") (some 61)
    { id := 1, restaurantId := 3, customerPhone := "555",
      twilioCallSid := none, duration := none, status := "in-progress",
      lastPolledAt := none, usageRecordedAt := none } 500
    [{ id := 1, restaurantId := 3, customerPhone := "555",
       twilioCallSid := none, duration := none, status := "in-progress",
       lastPolledAt := none, usageRecordedAt := none }]
    { users := [], usageRecords := [], subscriptionPrices := [],
      nextUsageId := 0 } 1 (by decide) (by decide) (by decide)).2.2.2

theorem reportOveragesBody_shape (env : StripeEnv) (uid : Nat)
    (st : BillingState) :
    (∃ e, env.meterEventResult = .error e ∧
        reportOveragesBody env uid st = .error e)
    ∨ reportOveragesBody env uid st = .ok (st, [])
    ∨ ∃ ids evId subs, env.meterEventResult = .ok evId ∧
        reportOveragesBody env uid st = .ok (markReported ids evId st, subs) := by
  unfold reportOveragesBody
  dsimp only []
  repeat' split
  all_goals
    first
      | exact Or.inr (Or.inl rfl)
      | exact Or.inl ⟨_, by assumption, rfl⟩
      | exact Or.inr (Or.inr ⟨_, _, _, by assumption, rfl⟩)

theorem reportOverages_fail_noop (env : StripeEnv) (uid : Nat)
    (st : BillingState) (e : String)
    (henv : env.meterEventResult = .error e) :
    reportOveragesToStripe env uid st = .ok (st, []) := by
  rcases reportOveragesBody_shape env uid st with
    ⟨e', _, hb⟩ | hb | ⟨ids, evId, subs, hev, hb⟩
  · simp [reportOveragesToStripe, hb]
  · simp [reportOveragesToStripe, hb]
  · rw [henv] at hev
    simp at hev

theorem reportOverages_noSub (env : StripeEnv) (uid : Nat)
    (st : BillingState) (user : User)
    (hfind : st.users.find? (fun u => u.id == uid) = some user)
    (hsub : user.stripeSubscriptionId = none) :
    reportOveragesToStripe env uid st = .ok (st, []) := by
  unfold reportOveragesToStripe reportOveragesBody
  simp only [hfind, hsub]

theorem counterBump_preserves (uid : Nat) (ty : String) (q : Nat) (u : User) :
    (counterBump uid ty q u).id = u.id
    ∧ (counterBump uid ty q u).stripeCustomerId = u.stripeCustomerId
    ∧ (counterBump uid ty q u).stripeSubscriptionId = u.stripeSubscriptionId
    ∧ (counterBump uid ty q u).subscriptionPlan = u.subscriptionPlan
    ∧ (counterBump uid ty q u).billingCycleStart = u.billingCycleStart := by
  simp only [counterBump]
  split
  · split <;> exact ⟨rfl, rfl, rfl, rfl, rfl⟩
  · exact ⟨rfl, rfl, rfl, rfl, rfl⟩

theorem find_map_counterBump (uid : Nat) (ty : String) (q v : Nat)
    (l : List User) :
    (l.map (counterBump uid ty q)).find? (fun u => u.id == v) =
      (l.find? (fun u => u.id == v)).map (counterBump uid ty q) := by
  induction l with
  | nil => rfl
  | cons x xs ih =>
    simp only [List.map_cons, List.find?_cons]
    rw [(counterBump_preserves uid ty q x).1]
    by_cases h : (x.id == v) = true
    · rw [h]
      rfl
    · rw [Bool.not_eq_true] at h
      rw [h]
      exact ih

/-- The ledger row inserted by `recordUsage`. -/
def newUsageEntry (uid rid : Nat) (ty : String) (q now : Nat) (user : User)
    (st : BillingState) : UsageRecord :=
  { id := st.nextUsageId, userId := uid, restaurantId := rid, type := ty,
    quantity := q, reportedToStripe := false, stripeUsageRecordId := none,
    billingPeriod := user.billingCycleStart.getD now }

/-- The state after `recordUsage`'s insert and counter update (before
`reportOveragesToStripe`). -/
def recordUsageLocal (uid rid : Nat) (ty : String) (q now : Nat) (user : User)
    (st : BillingState) : BillingState :=
  incrementCounters uid ty q
    { st with
      usageRecords := st.usageRecords ++ [newUsageEntry uid rid ty q now user st]
      nextUsageId := st.nextUsageId + 1 }

theorem recordUsage_eq_local (env : StripeEnv) (uid rid : Nat) (ty : String)
    (q now : Nat) (st : BillingState) (user : User)
    (huser : st.users.find? (fun u => u.id == uid) = some user) :
    recordUsage env true uid rid ty q now st =
      reportOveragesToStripe env uid (recordUsageLocal uid rid ty q now user st)
    := by
  unfold recordUsage
  rw [huser]
  rfl

theorem recordUsage_providerFail (env : StripeEnv) (uid rid : Nat)
    (ty : String) (q now : Nat) (st : BillingState) (user : User) (e : String)
    (huser : st.users.find? (fun u => u.id == uid) = some user)
    (henv : env.meterEventResult = .error e) :
    recordUsage env true uid rid ty q now st =
      .ok (recordUsageLocal uid rid ty q now user st, []) := by
  rw [recordUsage_eq_local env uid rid ty q now st user huser]
  exact reportOverages_fail_noop env uid _ e henv

theorem recordUsageLocal_find (uid rid : Nat) (ty : String) (q now : Nat)
    (user : User) (st : BillingState) (v : Nat)
    (huser : st.users.find? (fun u => u.id == v) = some user) :
    (recordUsageLocal uid rid ty q now user st).users.find?
        (fun u => u.id == v) = some (counterBump uid ty q user) := by
  show ((st.users.map (counterBump uid ty q)).find? (fun u => u.id == v)) = _
  rw [find_map_counterBump, huser]
  rfl

theorem recordUsageLocal_records (uid rid : Nat) (ty : String) (q now : Nat)
    (user : User) (st : BillingState) :
    (recordUsageLocal uid rid ty q now user st).usageRecords =
      st.usageRecords ++ [newUsageEntry uid rid ty q now user st] := rfl

/-- C3: if the claim and both ledger writes succeed but the Stripe
meter-event call fails, the call record stays claimed (`usageRecordedAt`
non-null), nothing is rolled back, the newly written ledger entries keep
`reportedToStripe = false` with pre-existing entries untouched, and no
meter event is submitted. -/
theorem no_rollback_on_provider_failure
    (env : StripeEnv) (agentConfigs : List AgentConfiguration)
    (restaurantId : Nat) (callSid : Option String) (callDuration : Option Nat)
    (callLog : CallLog) (now : Nat) (callDb : List CallLog)
    (st : BillingState) (billingUserId : Nat) (user : User) (e : String)
    (hmem : callLog ∈ callDb)
    (hnone : callLog.usageRecordedAt = none)
    (hagent : (agentConfigs.find? (fun a => a.restaurantId == restaurantId)).bind
        (fun a => a.billingUserId) = some billingUserId)
    (huser : st.users.find? (fun u => u.id == billingUserId) = some user)
    (henv : env.meterEventResult = .error e) :
    (∀ c ∈ (statusCallback env true true agentConfigs restaurantId callSid
        "completed" callDuration callLog now callDb st).callDb,
      c.id = callLog.id → c.usageRecordedAt ≠ none)
    ∧ (∃ newEntries,
        (statusCallback env true true agentConfigs restaurantId callSid
          "completed" callDuration callLog now callDb st).billing.usageRecords
          = st.usageRecords ++ newEntries
        ∧ ∀ r ∈ newEntries, r.reportedToStripe = false
            ∧ r.stripeUsageRecordId = none)
    ∧ (statusCallback env true true agentConfigs restaurantId callSid
        "completed" callDuration callLog now callDb st).submissions = [] := by
  have hclaim := claim_wins_after_update "completed" callDuration callSid
    callLog now callDb hmem hnone
  have hrec1 := recordUsage_providerFail env billingUserId restaurantId
    "call" 1 now st user e huser henv
  unfold statusCallback
  rw [if_pos ⟨rfl, hnone⟩, if_pos hclaim]
  split
  · next heq =>
      rw [hagent] at heq
      simp at heq
  · next b heq =>
      rw [hagent] at heq
      injection heq with hb
      subst hb
      simp only [hrec1]
      generalize ceilMinutes (handlerDurationSeconds
          (buildUpdates "completed" callDuration callSid callLog now).duration
          callLog.duration callDuration) = M
      by_cases hm : M > 0
      · rw [if_pos hm]
        have hfind1 := recordUsageLocal_find billingUserId restaurantId
          "call" 1 now user st billingUserId huser
        have hrec2 := recordUsage_providerFail env billingUserId restaurantId
          "minute" M now
          (recordUsageLocal billingUserId restaurantId "call" 1 now user st)
          (counterBump billingUserId "call" 1 user) e hfind1 henv
        simp only [hrec2]
        refine ⟨mark_clears_nulls _ _ _,
          ⟨[newUsageEntry billingUserId restaurantId "call" 1 now user st,
            newUsageEntry billingUserId restaurantId "minute" M now
              (counterBump billingUserId "call" 1 user)
              (recordUsageLocal billingUserId restaurantId "call" 1 now user st)],
           ?_, ?_⟩, rfl⟩
        · rw [recordUsageLocal_records, recordUsageLocal_records,
            List.append_assoc]
          rfl
        · intro r hr
          simp only [List.mem_cons, List.not_mem_nil, or_false] at hr
          rcases hr with hr | hr <;> rw [hr] <;> exact ⟨rfl, rfl⟩
      · rw [if_neg hm]
        refine ⟨mark_clears_nulls _ _ _,
          ⟨[newUsageEntry billingUserId restaurantId "call" 1 now user st],
           recordUsageLocal_records _ _ _ _ _ _ _, ?_⟩, rfl⟩
        intro r hr
        simp only [List.mem_singleton] at hr
        rw [hr]
        exact ⟨rfl, rfl⟩

/-- Concrete rows shared by the witnesses below. -/
def wCallLog : CallLog :=
  { id := 1, restaurantId := 3, customerPhone := "555",
    twilioCallSid := none, duration := none, status := "in-progress",
    lastPolledAt := none, usageRecordedAt := none }

def wUserStarter : User :=
  { id := 1, stripeCustomerId := some "cus",
    stripeSubscriptionId := some "sub", subscriptionPlan := some "starter",
    billingCycleStart := some 100, monthlyCallsUsed := some 25,
    monthlyMinutesUsed := some 0 }

def wPriceStarter : SubscriptionPrice :=
  { plan := "Starter", stripeMeteredPriceId := some "mp",
    includedMinutes := some 0, includedCalls := some 20 }

def wStarterState : BillingState :=
  { users := [wUserStarter], usageRecords := [],
    subscriptionPrices := [wPriceStarter], nextUsageId := 0 }

def wEnvFail : StripeEnv :=
  { subscriptionItemPriceIds := ["mp"],
    meterEventResult := .error "stripe down" }

def wEnvOk : StripeEnv :=
  { subscriptionItemPriceIds := ["mp"], meterEventResult := .ok "evt_1" }

def wAgentConfig : AgentConfiguration :=
  { restaurantId := 3, billingUserId := some 1 }

/-- Witness for C3: concrete completed 61-second call, Stripe meter call
fails; no meter event is submitted while the claim and entries stay. -/
theorem no_rollback_on_provider_failure_witness :
    (statusCallback wEnvFail true true [wAgentConfig] 3 (some "CA1")
      "completed" (some 61) wCallLog 500 [wCallLog]
      wStarterState).submissions = [] :=
  (no_rollback_on_provider_failure wEnvFail [wAgentConfig] 3 (some "CA1")
    (some 61) wCallLog 500 [wCallLog] wStarterState 1 wUserStarter
    "stripe down" (by decide) (by decide) (by decide) (by decide)
    (by decide)).2.2

def wUsageEntry : UsageRecord :=
  { id := 7, userId := 1, restaurantId := 3, type := "call", quantity := 5,
    reportedToStripe := false, stripeUsageRecordId := none,
    billingPeriod := 100 }

def wStateWithEntry : BillingState :=
  { users := [wUserStarter], usageRecords := [wUsageEntry],
    subscriptionPrices := [wPriceStarter], nextUsageId := 8 }

/-- C4 counterexample: with a pending unreported entry and the Stripe
meter-event call failing, the body of `reportOveragesToStripe` throws, yet
the method resolves normally (`.ok`) with nothing marked — the outer catch
logs and swallows the error instead of propagating it to the caller. -/
theorem overage_error_not_propagated_counterexample :
    reportOveragesBody wEnvFail 1 wStateWithEntry = .error "stripe down"
    ∧ reportOveragesToStripe wEnvFail 1 wStateWithEntry =
        .ok (wStateWithEntry, [])
    ∧ ∀ e, reportOveragesToStripe wEnvFail 1 wStateWithEntry ≠ .error e := by
  refine ⟨by decide, by decide, fun e h => ?_⟩
  rw [show reportOveragesToStripe wEnvFail 1 wStateWithEntry =
      .ok (wStateWithEntry, []) from by decide] at h
  exact Except.noConfusion h

theorem markReported_marks (ids : List Nat) (evId : String)
    (st : BillingState) :
    ∀ r' ∈ (markReported ids evId st).usageRecords,
      ids.contains r'.id = true →
        r'.reportedToStripe = true ∧ r'.stripeUsageRecordId = some evId := by
  intro r' hr' hin
  simp only [markReported, List.mem_map] at hr'
  obtain ⟨r, _, heq⟩ := hr'
  by_cases h : ids.contains r.id = true
  · rw [if_pos h] at heq
    rw [← heq]
    exact ⟨rfl, rfl⟩
  · rw [if_neg h] at heq
    subst heq
    exact absurd hin h

theorem unreported_id_included (uid : Nat) (ty : String) (st : BillingState) :
    ∀ r ∈ st.usageRecords, isUnreported uid ty r = true →
      ((st.usageRecords.filter (isUnreported uid ty)).map
        (fun r => r.id)).contains r.id = true := by
  intro r hr hu
  have hmem : r.id ∈ (st.usageRecords.filter (isUnreported uid ty)).map
      (fun r => r.id) :=
    List.mem_map.mpr ⟨r, List.mem_filter.mpr ⟨hr, hu⟩, rfl⟩
  exact List.elem_eq_true_of_mem hmem

theorem reportOverages_success_run
    (env : StripeEnv) (uid : Nat) (st : BillingState) (user : User)
    (sid plan : String) (pc : SubscriptionPrice) (ty : String) (q : Nat)
    (mp evId : String)
    (hfind : st.users.find? (fun u => u.id == uid) = some user)
    (hsub : user.stripeSubscriptionId = some sid)
    (hplan : user.subscriptionPlan = some plan)
    (hpc : st.subscriptionPrices.find?
        (fun p => p.plan == capitalizeFirst plan) = some pc)
    (hdec : overageDecision user pc = some (ty, q))
    (hunrep : st.usageRecords.filter (isUnreported uid ty) ≠ [])
    (hmp : pc.stripeMeteredPriceId = some mp)
    (hitem : env.subscriptionItemPriceIds.contains mp = true)
    (hev : env.meterEventResult = .ok evId) :
    reportOveragesToStripe env uid st =
      .ok (markReported
            ((st.usageRecords.filter (isUnreported uid ty)).map
              (fun r => r.id)) evId st,
          [{ eventName := if ty = "call" then "otto_calls" else "otto_minutes",
             value := ((st.usageRecords.filter (isUnreported uid ty)).map
               (fun r => r.quantity)).sum,
             stripeCustomerId := user.stripeCustomerId }]) := by
  have hempty : (st.usageRecords.filter (isUnreported uid ty)).isEmpty
      = false := by
    cases hfil : st.usageRecords.filter (isUnreported uid ty) with
    | nil => exact absurd hfil hunrep
    | cons a l => rfl
  unfold reportOveragesToStripe reportOveragesBody
  simp only [hfind, hsub, hplan, hpc, hdec, hmp, hempty, hitem, hev,
    Bool.false_eq_true, if_false, if_true]

/-- C4 (amended): overage reporting marks ledger entries if and only if the
provider submission succeeds — on success every included unreported entry is
marked reported with the provider's event id; on failure nothing is marked
and no submission occurs, but the error is caught and logged inside
`reportOveragesToStripe` itself (the method resolves normally; the error is
not propagated to its caller). -/
theorem overage_marking_iff_provider_success
    (uid : Nat) (st : BillingState) (user : User) (sid plan : String)
    (pc : SubscriptionPrice) (ty : String) (q : Nat) (mp : String)
    (hfind : st.users.find? (fun u => u.id == uid) = some user)
    (hsub : user.stripeSubscriptionId = some sid)
    (hplan : user.subscriptionPlan = some plan)
    (hpc : st.subscriptionPrices.find?
        (fun p => p.plan == capitalizeFirst plan) = some pc)
    (hdec : overageDecision user pc = some (ty, q))
    (hunrep : st.usageRecords.filter (isUnreported uid ty) ≠ [])
    (hmp : pc.stripeMeteredPriceId = some mp) :
    (∀ env evId, env.meterEventResult = .ok evId →
       env.subscriptionItemPriceIds.contains mp = true →
       reportOveragesToStripe env uid st =
         .ok (markReported
               ((st.usageRecords.filter (isUnreported uid ty)).map
                 (fun r => r.id)) evId st,
             [{ eventName :=
                  if ty = "call" then "otto_calls" else "otto_minutes",
                value := ((st.usageRecords.filter (isUnreported uid ty)).map
                  (fun r => r.quantity)).sum,
                stripeCustomerId := user.stripeCustomerId }])
       ∧ (∀ r ∈ st.usageRecords, isUnreported uid ty r = true →
           ((st.usageRecords.filter (isUnreported uid ty)).map
             (fun r => r.id)).contains r.id = true)
       ∧ (∀ r' ∈ (markReported
             ((st.usageRecords.filter (isUnreported uid ty)).map
               (fun r => r.id)) evId st).usageRecords,
           ((st.usageRecords.filter (isUnreported uid ty)).map
             (fun r => r.id)).contains r'.id = true →
           r'.reportedToStripe = true ∧ r'.stripeUsageRecordId = some evId))
    ∧ (∀ env e, env.meterEventResult = .error e →
        reportOveragesToStripe env uid st = .ok (st, [])) := by
  refine ⟨fun env evId hev hitem => ⟨?_, unreported_id_included uid ty st,
      markReported_marks _ _ _⟩, fun env e henv =>
      reportOverages_fail_noop env uid st e henv⟩
  exact reportOverages_success_run env uid st user sid plan pc ty q mp evId
    hfind hsub hplan hpc hdec hunrep hmp hitem hev

/-- Witness for C4 (amended) at the concrete pending-entry state: the
successful submission marks the single entry and reports quantity 5. -/
theorem overage_marking_iff_provider_success_witness :
    reportOveragesToStripe wEnvOk 1 wStateWithEntry =
      .ok ({ users := [wUserStarter],
             usageRecords :=
               [{ id := 7, userId := 1, restaurantId := 3, type := "call",
                  quantity := 5, reportedToStripe := true,
                  stripeUsageRecordId := some "evt_1", billingPeriod := 100 }],
             subscriptionPrices := [wPriceStarter], nextUsageId := 8 },
          [{ eventName := "otto_calls", value := 5,
             stripeCustomerId := some "cus" }]) :=
  ((overage_marking_iff_provider_success 1 wStateWithEntry wUserStarter
      "sub" "starter" wPriceStarter "call" 5 "mp" (by decide) (by decide)
      (by decide) (by decide) (by decide) (by decide) (by decide)).1
    wEnvOk "evt_1" (by decide) (by decide)).1.trans (by decide)

def wUserNoSub : User :=
  { id := 1, stripeCustomerId := none, stripeSubscriptionId := none,
    subscriptionPlan := some "starter", billingCycleStart := some 100,
    monthlyCallsUsed := some 0, monthlyMinutesUsed := some 0 }

def wNoSubState : BillingState :=
  { users := [wUserNoSub], usageRecords := [],
    subscriptionPrices := [wPriceStarter], nextUsageId := 0 }

/-- C5 counterexample: the agent has a billing user, but that user has no
external subscription; after reconciling a completed call the usage-claimed
timestamp is the fresh claim time (not cleared back to null), local ledger
entries were written, and reporting silently no-oped. -/
theorem no_subscription_keeps_claim_counterexample :
    (statusCallback wEnvOk true true [wAgentConfig] 3 (some "CA1")
      "completed" (some 61) wCallLog 500 [wCallLog] wNoSubState).callDb =
      [{ id := 1, restaurantId := 3, customerPhone := "555",
         twilioCallSid := some "CA1", duration := some 61,
         status := "completed", lastPolledAt := some 500,
         usageRecordedAt := some 500 }]
    ∧ wUserNoSub.stripeSubscriptionId = none
    ∧ (statusCallback wEnvOk true true [wAgentConfig] 3 (some "CA1")
        "completed" (some 61) wCallLog 500 [wCallLog]
        wNoSubState).submissions = [] := by
  decide

theorem recordUsage_noSub (env : StripeEnv) (uid rid : Nat) (ty : String)
    (q now : Nat) (st : BillingState) (user : User)
    (huser : st.users.find? (fun u => u.id == uid) = some user)
    (hsub : user.stripeSubscriptionId = none) :
    recordUsage env true uid rid ty q now st =
      .ok (recordUsageLocal uid rid ty q now user st, []) := by
  rw [recordUsage_eq_local env uid rid ty q now st user huser]
  exact reportOverages_noSub env uid _ (counterBump uid ty q user)
    (recordUsageLocal_find uid rid ty q now user st uid huser)
    (by rw [(counterBump_preserves uid ty q user).2.2.1]; exact hsub)

/-- C5 (amended): when the agent configuration is missing or has no billing
user, the handler clears the usage-claimed timestamp and treats the absence
as a no-op (no billing write, no submission, no error). When the billing
user exists but has no external subscription, the claim is NOT cleared: the
call stays claimed, local ledger entries are still written, and overage
reporting silently no-ops without error. -/
theorem missing_billing_config_behavior
    (env : StripeEnv) (agentConfigs : List AgentConfiguration)
    (restaurantId : Nat) (callSid : Option String) (callDuration : Option Nat)
    (callLog : CallLog) (now : Nat) (callDb : List CallLog)
    (st : BillingState)
    (hmem : callLog ∈ callDb) (hnone : callLog.usageRecordedAt = none) :
    ((agentConfigs.find? (fun a => a.restaurantId == restaurantId)).bind
        (fun a => a.billingUserId) = none →
      (∀ c ∈ (statusCallback env true true agentConfigs restaurantId callSid
          "completed" callDuration callLog now callDb st).callDb,
        c.id = callLog.id → c.usageRecordedAt = none)
      ∧ (statusCallback env true true agentConfigs restaurantId callSid
          "completed" callDuration callLog now callDb st).billing = st
      ∧ (statusCallback env true true agentConfigs restaurantId callSid
          "completed" callDuration callLog now callDb st).submissions = []
      ∧ (statusCallback env true true agentConfigs restaurantId callSid
          "completed" callDuration callLog now callDb st).usageErrorLogged
          = false)
    ∧ (∀ billingUserId user,
        (agentConfigs.find? (fun a => a.restaurantId == restaurantId)).bind
          (fun a => a.billingUserId) = some billingUserId →
        st.users.find? (fun u => u.id == billingUserId) = some user →
        user.stripeSubscriptionId = none →
        (∀ c ∈ (statusCallback env true true agentConfigs restaurantId callSid
            "completed" callDuration callLog now callDb st).callDb,
          c.id = callLog.id → c.usageRecordedAt ≠ none)
        ∧ (∃ newEntries, newEntries ≠ [] ∧
            (statusCallback env true true agentConfigs restaurantId callSid
              "completed" callDuration callLog now callDb
              st).billing.usageRecords = st.usageRecords ++ newEntries)
        ∧ (statusCallback env true true agentConfigs restaurantId callSid
            "completed" callDuration callLog now callDb st).submissions = []
        ∧ (statusCallback env true true agentConfigs restaurantId callSid
            "completed" callDuration callLog now callDb st).usageErrorLogged
            = false) := by
  have hclaim := claim_wins_after_update "completed" callDuration callSid
    callLog now callDb hmem hnone
  constructor
  · intro hag
    unfold statusCallback
    rw [if_pos ⟨rfl, hnone⟩, if_pos hclaim]
    split
    · exact ⟨clear_clears _ _, rfl, rfl, rfl⟩
    · next b heq =>
        rw [hag] at heq
        exact Option.noConfusion (heq : (none : Option Nat) = some b)
  · intro billingUserId user hag huser hsub
    have hrec1 := recordUsage_noSub env billingUserId restaurantId "call" 1
      now st user huser hsub
    unfold statusCallback
    rw [if_pos ⟨rfl, hnone⟩, if_pos hclaim]
    split
    · next heq =>
        rw [hag] at heq
        simp at heq
    · next b heq =>
        rw [hag] at heq
        injection heq with hb
        subst hb
        simp only [hrec1]
        generalize ceilMinutes (handlerDurationSeconds
            (buildUpdates "completed" callDuration callSid callLog now).duration
            callLog.duration callDuration) = M
        by_cases hm : M > 0
        · rw [if_pos hm]
          have hrec2 := recordUsage_noSub env billingUserId restaurantId
            "minute" M now
            (recordUsageLocal billingUserId restaurantId "call" 1 now user st)
            (counterBump billingUserId "call" 1 user)
            (recordUsageLocal_find billingUserId restaurantId "call" 1 now
              user st billingUserId huser)
            (by rw [(counterBump_preserves billingUserId "call" 1 user).2.2.1]
                exact hsub)
          simp only [hrec2]
          have hrecords :
              (recordUsageLocal billingUserId restaurantId "minute" M now
                (counterBump billingUserId "call" 1 user)
                (recordUsageLocal billingUserId restaurantId "call" 1 now user
                  st)).usageRecords
              = st.usageRecords ++
                (newUsageEntry billingUserId restaurantId "call" 1 now user st
                  :: [newUsageEntry billingUserId restaurantId "minute" M now
                    (counterBump billingUserId "call" 1 user)
                    (recordUsageLocal billingUserId restaurantId "call" 1 now
                      user st)]) := by
            rw [recordUsageLocal_records, recordUsageLocal_records,
              List.append_assoc]
            rfl
          exact ⟨mark_clears_nulls _ _ _,
            ⟨_, List.cons_ne_nil _ _, hrecords⟩, by trivial, by trivial⟩
        · rw [if_neg hm]
          exact ⟨mark_clears_nulls _ _ _,
            ⟨_, List.cons_ne_nil _ _, recordUsageLocal_records _ _ _ _ _ _ _⟩,
            by trivial, by trivial⟩

/-- Witness for C5 (amended): with no agent configuration at all, the claim
is cleared and the billing state is untouched. -/
theorem missing_billing_config_behavior_witness :
    (statusCallback wEnvOk true true [] 3 (some "CA1") "completed" (some 61)
      wCallLog 500 [wCallLog] wNoSubState).billing = wNoSubState :=
  ((missing_billing_config_behavior wEnvOk [] 3 (some "CA1") (some 61)
    wCallLog 500 [wCallLog] wNoSubState (by decide) (by decide)).1
    (by decide)).2.1

/-- C6: the overage decision equals the reference rule — `starter` bills
`max(0, monthlyCallsUsed - includedCalls)` calls, `growth`/`pro` bill
`max(0, monthlyMinutesUsed - includedMinutes)` minutes, `unlimited` (whose
`PLAN_CONFIG` entry has `includedMinutes = null` and
`perMinuteOverage = null`) never computes an overage and never reaches the
reporting path, and a computed overage of zero performs no provider call. -/
theorem overage_decision_matches_spec :
    (∀ (user : User) (pc : SubscriptionPrice) (plan : String),
      user.subscriptionPlan = some plan →
      overageDecision user pc =
        (match overageSpecRule plan (user.monthlyCallsUsed.getD 0)
            (user.monthlyMinutesUsed.getD 0) (pc.includedCalls.getD 0)
            (pc.includedMinutes.getD 0) with
         | none => none
         | some (ty2, q2) => if 0 < q2 then some (ty2, q2) else none))
    ∧ (PLAN_CONFIG_unlimited.includedMinutes = none
       ∧ PLAN_CONFIG_unlimited.perMinuteOverage = none)
    ∧ (∀ (env : StripeEnv) (uid : Nat) (st : BillingState) (user : User),
        st.users.find? (fun u => u.id == uid) = some user →
        user.subscriptionPlan = some "unlimited" →
        reportOveragesToStripe env uid st = .ok (st, []))
    ∧ (∀ (env : StripeEnv) (uid : Nat) (st : BillingState) (user : User)
        (plan : String) (pc : SubscriptionPrice),
        st.users.find? (fun u => u.id == uid) = some user →
        user.subscriptionPlan = some plan →
        st.subscriptionPrices.find?
          (fun p => p.plan == capitalizeFirst plan) = some pc →
        overageDecision user pc = none →
        reportOveragesToStripe env uid st = .ok (st, [])) := by
  have key : ∀ a b : Nat, (max 0 ((a : Int) - (b : Int))).toNat = a - b := by
    intro a b
    omega
  refine ⟨?_, ⟨rfl, rfl⟩, ?_, ?_⟩
  · intro user pc plan hplan
    rw [overageDecision, overageSpecRule, hplan]
    by_cases h1 : plan = "starter"
    · subst h1
      rw [if_pos rfl, if_pos rfl, key]
    · by_cases h2 : plan = "growth" ∨ plan = "pro"
      · rw [if_neg (fun hh => h1 (Option.some.inj hh)), if_neg h1,
          if_pos (by simpa using h2), if_pos h2, key]
      · rw [if_neg (fun hh => h1 (Option.some.inj hh)), if_neg h1,
          if_neg (by simpa using h2), if_neg h2]
  · intro env uid st user hfind hplan
    unfold reportOveragesToStripe reportOveragesBody
    rw [hfind]
    cases hsub : user.stripeSubscriptionId with
    | none => simp only [hplan, hsub]
    | some sid =>
      simp only [hplan, hsub]
      cases hpc : st.subscriptionPrices.find?
          (fun p => p.plan == capitalizeFirst "unlimited") with
      | none => simp only [hpc]
      | some pc =>
        have hdec : overageDecision user pc = none := by
          rw [overageDecision, hplan]
          rw [if_neg (by simp), if_neg (by simp)]
        simp only [hpc, hdec]
  · intro env uid st user plan pc hfind hplan hpc hdec
    unfold reportOveragesToStripe reportOveragesBody
    rw [hfind]
    cases hsub : user.stripeSubscriptionId with
    | none => simp only [hplan, hsub]
    | some sid => simp only [hplan, hsub, hpc, hdec]

def wUserStarter20 : User :=
  { id := 1, stripeCustomerId := some "cus",
    stripeSubscriptionId := some "sub", subscriptionPlan := some "starter",
    billingCycleStart := some 100, monthlyCallsUsed := some 20,
    monthlyMinutesUsed := some 0 }

def wState20 : BillingState :=
  { users := [wUserStarter20], usageRecords := [wUsageEntry],
    subscriptionPrices := [wPriceStarter], nextUsageId := 8 }

/-- Witness for C6: `includedCalls = 20` with 25 calls used computes
quantity 5; with 20 calls used it computes no overage and the provider is
never called. -/
theorem overage_decision_matches_spec_witness :
    overageDecision wUserStarter wPriceStarter = some ("call", 5)
    ∧ overageDecision wUserStarter20 wPriceStarter = none
    ∧ reportOveragesToStripe wEnvOk 1 wState20 = .ok (wState20, []) :=
  ⟨(overage_decision_matches_spec.1 wUserStarter wPriceStarter "starter"
      (by decide)).trans (by decide),
   (overage_decision_matches_spec.1 wUserStarter20 wPriceStarter "starter"
      (by decide)).trans (by decide),
   overage_decision_matches_spec.2.2.2 wEnvOk 1 wState20 wUserStarter20
     "starter" wPriceStarter (by decide) (by decide) (by decide) (by decide)⟩

theorem markReported_filter_empty (uid : Nat) (ty : String)
    (st : BillingState) (evId : String) :
    (markReported ((st.usageRecords.filter (isUnreported uid ty)).map
      (fun r => r.id)) evId st).usageRecords.filter (isUnreported uid ty)
      = [] := by
  rw [List.filter_eq_nil_iff]
  intro a ha
  simp only [markReported, List.mem_map] at ha
  obtain ⟨r, hr, heq⟩ := ha
  by_cases hc : ((st.usageRecords.filter (isUnreported uid ty)).map
      (fun r => r.id)).contains r.id = true
  · rw [if_pos hc] at heq
    rw [← heq]
    simp [isUnreported]
  · rw [if_neg hc] at heq
    subst heq
    intro hu
    exact hc (unreported_id_included uid ty st r hr hu)

theorem report_on_clean_state (env2 : StripeEnv) (uid : Nat)
    (st1 : BillingState) (user : User) (sid plan : String)
    (pc : SubscriptionPrice) (ty : String) (q : Nat)
    (hfind1 : st1.users.find? (fun u => u.id == uid) = some user)
    (hsub : user.stripeSubscriptionId = some sid)
    (hplan : user.subscriptionPlan = some plan)
    (hpc1 : st1.subscriptionPrices.find?
        (fun p => p.plan == capitalizeFirst plan) = some pc)
    (hdec : overageDecision user pc = some (ty, q))
    (hempty : st1.usageRecords.filter (isUnreported uid ty) = []) :
    reportOveragesToStripe env2 uid st1 = .ok (st1, []) := by
  unfold reportOveragesToStripe reportOveragesBody
  simp only [hfind1, hsub, hplan, hpc1, hdec, hempty, List.isEmpty_nil]
  rfl

/-- C7: once a successful pass has submitted and marked every unreported
entry of the kind, a second pass on the unchanged ledger finds zero
unreported entries and performs no provider submission — exactly one
submission happens across the two invocations. -/
theorem overage_reporting_idempotent
    (env : StripeEnv) (uid : Nat) (st : BillingState) (user : User)
    (sid plan : String) (pc : SubscriptionPrice) (ty : String) (q : Nat)
    (mp evId : String)
    (hfind : st.users.find? (fun u => u.id == uid) = some user)
    (hsub : user.stripeSubscriptionId = some sid)
    (hplan : user.subscriptionPlan = some plan)
    (hpc : st.subscriptionPrices.find?
        (fun p => p.plan == capitalizeFirst plan) = some pc)
    (hdec : overageDecision user pc = some (ty, q))
    (hunrep : st.usageRecords.filter (isUnreported uid ty) ≠ [])
    (hmp : pc.stripeMeteredPriceId = some mp)
    (hitem : env.subscriptionItemPriceIds.contains mp = true)
    (hev : env.meterEventResult = .ok evId) :
    reportOveragesToStripe env uid st =
      .ok (markReported ((st.usageRecords.filter (isUnreported uid ty)).map
            (fun r => r.id)) evId st,
          [{ eventName := if ty = "call" then "otto_calls" else "otto_minutes",
             value := ((st.usageRecords.filter (isUnreported uid ty)).map
               (fun r => r.quantity)).sum,
             stripeCustomerId := user.stripeCustomerId }])
    ∧ ∀ env2 : StripeEnv,
        reportOveragesToStripe env2 uid
          (markReported ((st.usageRecords.filter (isUnreported uid ty)).map
            (fun r => r.id)) evId st) =
        .ok (markReported ((st.usageRecords.filter (isUnreported uid ty)).map
            (fun r => r.id)) evId st, []) := by
  refine ⟨reportOverages_success_run env uid st user sid plan pc ty q mp evId
    hfind hsub hplan hpc hdec hunrep hmp hitem hev, fun env2 => ?_⟩
  exact report_on_clean_state env2 uid _ user sid plan pc ty q hfind hsub
    hplan hpc hdec (markReported_filter_empty uid ty st evId)

/-- Witness for C7: at the concrete pending-entry state, the second pass (any
provider environment) no-ops on the state the first pass marked. -/
theorem overage_reporting_idempotent_witness :
    reportOveragesToStripe wEnvFail 1
      (markReported ((wStateWithEntry.usageRecords.filter
        (isUnreported 1 "call")).map (fun r => r.id)) "evt_1"
        wStateWithEntry) =
      .ok (markReported ((wStateWithEntry.usageRecords.filter
        (isUnreported 1 "call")).map (fun r => r.id)) "evt_1"
        wStateWithEntry, []) :=
  (overage_reporting_idempotent wEnvOk 1 wStateWithEntry wUserStarter "sub"
    "starter" wPriceStarter "call" 5 "mp" "evt_1" (by decide) (by decide)
    (by decide) (by decide) (by decide) (by decide) (by decide) (by decide)
    (by decide)).2 wEnvFail

/-- The billing-relevant projection of a ledger row: owner, kind, quantity
(the reporting flags may change when entries are marked reported). -/
def entrySkeleton (r : UsageRecord) : Nat × String × Nat :=
  (r.userId, r.type, r.quantity)

theorem markReported_skeleton (ids : List Nat) (evId : String)
    (st : BillingState) :
    (markReported ids evId st).usageRecords.map entrySkeleton =
      st.usageRecords.map entrySkeleton := by
  show (st.usageRecords.map _).map entrySkeleton = _
  rw [List.map_map]
  apply List.map_congr_left
  intro r _
  simp only [Function.comp_apply]
  by_cases h : ids.contains r.id = true
  · rw [if_pos h]
    rfl
  · rw [if_neg h]

theorem reportOverages_ok_state (env : StripeEnv) (uid : Nat)
    (st : BillingState) :
    ∃ stsubs, reportOveragesToStripe env uid st = .ok stsubs
      ∧ stsubs.1.users = st.users
      ∧ stsubs.1.subscriptionPrices = st.subscriptionPrices
      ∧ stsubs.1.usageRecords.map entrySkeleton =
          st.usageRecords.map entrySkeleton := by
  rcases reportOveragesBody_shape env uid st with ⟨e, _, hb⟩ | hb |
      ⟨ids, evId, subs, _, hb⟩
  · exact ⟨(st, []), by simp [reportOveragesToStripe, hb], rfl, rfl, rfl⟩
  · exact ⟨(st, []), by simp [reportOveragesToStripe, hb], rfl, rfl, rfl⟩
  · exact ⟨(markReported ids evId st, subs),
      by simp [reportOveragesToStripe, hb], rfl, rfl,
      markReported_skeleton ids evId st⟩

theorem recordUsage_ok_skeleton (env : StripeEnv) (uid rid : Nat)
    (ty : String) (q now : Nat) (st : BillingState) (user : User)
    (huser : st.users.find? (fun u => u.id == uid) = some user) :
    ∃ st' subs, recordUsage env true uid rid ty q now st = .ok (st', subs)
      ∧ st'.users = st.users.map (counterBump uid ty q)
      ∧ st'.usageRecords.map entrySkeleton =
          st.usageRecords.map entrySkeleton ++ [(uid, ty, q)] := by
  obtain ⟨⟨st', subs⟩, hok, husers, _, hsk⟩ :=
    reportOverages_ok_state env uid (recordUsageLocal uid rid ty q now user st)
  refine ⟨st', subs, ?_, ?_, ?_⟩
  · rw [recordUsage_eq_local env uid rid ty q now st user huser, hok]
  · rw [husers]
    rfl
  · rw [hsk, recordUsageLocal_records, List.map_append]
    rfl

theorem ceilMinutes_eq_ceil (d : Nat) : ceilMinutes d = ⌈(d : ℚ) / 60⌉₊ := by
  rcases Nat.eq_zero_or_pos d with hd | hd
  · subst hd
    simp [ceilMinutes]
  · have hn : ceilMinutes d ≠ 0 := by
      simp only [ceilMinutes]
      omega
    rw [eq_comm, Nat.ceil_eq_iff hn]
    constructor
    · rw [lt_div_iff₀ (by norm_num : (0:ℚ) < 60)]
      exact_mod_cast
        (show ((ceilMinutes d - 1) * 60) < d by simp only [ceilMinutes]; omega)
    · rw [div_le_iff₀ (by norm_num : (0:ℚ) < 60)]
      exact_mod_cast
        (show d ≤ ceilMinutes d * 60 by simp only [ceilMinutes]; omega)

/-- C9: on a completed call's reconciliation (claim won, billing user found,
ledger inserts succeed), the handler always appends one `call` entry of
quantity 1, appends a `minute` entry exactly when
`ceil(durationSeconds / 60) > 0` with exactly that quantity, and the billed
minute count is the exact rational ceiling of `durationSeconds / 60`. -/
theorem minute_rounding_and_entries
    (env : StripeEnv) (agentConfigs : List AgentConfiguration)
    (restaurantId : Nat) (callSid : Option String) (callDuration : Option Nat)
    (callLog : CallLog) (now : Nat) (callDb : List CallLog)
    (st : BillingState) (billingUserId : Nat) (user : User)
    (hmem : callLog ∈ callDb) (hnone : callLog.usageRecordedAt = none)
    (hagent : (agentConfigs.find? (fun a => a.restaurantId == restaurantId)).bind
        (fun a => a.billingUserId) = some billingUserId)
    (huser : st.users.find? (fun u => u.id == billingUserId) = some user) :
    ((statusCallback env true true agentConfigs restaurantId callSid
        "completed" callDuration callLog now callDb
        st).billing.usageRecords.map entrySkeleton
      = st.usageRecords.map entrySkeleton ++ [(billingUserId, "call", 1)] ++
        (if 0 < ceilMinutes (handlerDurationSeconds
            (buildUpdates "completed" callDuration callSid callLog now).duration
            callLog.duration callDuration)
         then [(billingUserId, "minute", ceilMinutes (handlerDurationSeconds
            (buildUpdates "completed" callDuration callSid callLog
              now).duration callLog.duration callDuration))]
         else []))
    ∧ ∀ d : Nat, ceilMinutes d = ⌈(d : ℚ) / 60⌉₊ := by
  refine ⟨?_, ceilMinutes_eq_ceil⟩
  have hclaim := claim_wins_after_update "completed" callDuration callSid
    callLog now callDb hmem hnone
  obtain ⟨st1, subs1, hrec1, husers1, hsk1⟩ := recordUsage_ok_skeleton env
    billingUserId restaurantId "call" 1 now st user huser
  unfold statusCallback
  rw [if_pos ⟨rfl, hnone⟩, if_pos hclaim]
  split
  · next heq =>
      rw [hagent] at heq
      simp at heq
  · next b heq =>
      rw [hagent] at heq
      injection heq with hb
      subst hb
      simp only [hrec1]
      generalize ceilMinutes (handlerDurationSeconds
          (buildUpdates "completed" callDuration callSid callLog now).duration
          callLog.duration callDuration) = M
      by_cases hm : 0 < M
      · rw [if_pos hm, if_pos hm]
        have hfind1 : st1.users.find? (fun u => u.id == billingUserId) =
            some (counterBump billingUserId "call" 1 user) := by
          rw [husers1, find_map_counterBump, huser]
          rfl
        obtain ⟨st2, subs2, hrec2, _, hsk2⟩ := recordUsage_ok_skeleton env
          billingUserId restaurantId "minute" M now st1
          (counterBump billingUserId "call" 1 user) hfind1
        simp only [hrec2]
        rw [hsk2, hsk1]
      · rw [if_neg hm, if_neg hm]
        rw [hsk1, List.append_nil]

/-- Witness for C9: a completed 61-second call writes one call entry of
quantity 1 and one minute entry of quantity 2 (ceiling of 61/60). -/
theorem minute_rounding_and_entries_witness :
    (statusCallback wEnvOk true true [wAgentConfig] 3 (some "CA1")
      "completed" (some 61) wCallLog 500 [wCallLog]
      wNoSubState).billing.usageRecords.map entrySkeleton =
      [(1, "call", 1), (1, "minute", 2)] :=
  (minute_rounding_and_entries wEnvOk [wAgentConfig] 3 (some "CA1") (some 61)
    wCallLog 500 [wCallLog] wNoSubState 1 wUserNoSub (by decide) (by decide)
    (by decide) (by decide)).1.trans (by decide)

end Otto